import Mathlib

/-!
Shallow embedding of `src/streamlitapp.py` (Cloud Infrastructure Code Generator,
a single-file Streamlit application).

The application logic consists of:
* `initialize_gemini_api` (lines 16-21): shadows its `api_key` parameter with the
  `GEMINI_API_KEY` environment variable, configures the client with that value and
  returns the `gemini-1.5-pro` model handle;
* `generate_code` (lines 24-61): builds one of three fixed prompt templates with the
  requirements string interpolated and performs the external call;
* the Generate-button handler inside `main` (lines 107-123): gates on the sidebar
  key and on the requirements text, then performs the call, storing the result in
  `st.session_state.generated_code` on success;
* the result-display section inside `main` (lines 126-156): when the stored result
  is non-empty (Python truthiness), shows it, offers it for download under
  a name derived from the currently selected category, and shows a category hint.

The external call `model.generate_content(prompt).text` is modelled by an oracle of
type `Except String String`: `Except.ok t` is a reply with text `t`, `Except.error e`
is a raised exception whose `str(e)` is `e`.  Environment lookup is passed in as an
explicit `Option String`.

Note on line 140 of the source: the statement
`st.markdown(st.session_state.generated_code, unsafe_allow_html=True)` is written
with 15 spaces of indentation inside a block indented by 8 spaces, which is an
`IndentationError` in Python: the module as committed does not parse.  The display
section below (`renderResult`) models the evident intent, with that statement at
the enclosing block's indentation level; the defect itself is recorded against the
claim about the display path.
-/

namespace DevOpsLab

/-- The three fixed categories offered by the radio selector (line 88-92). -/
inductive Category where
  | ansible
  | docker
  | terraform
deriving DecidableEq

/-- The string tag of a category, as the radio widget yields it. -/
def categoryName : Category → String
  | .ansible => "ansible"
  | .docker => "docker"
  | .terraform => "terraform"

/-- The model handle returned by `initialize_gemini_api`: which credential was
passed to `genai.configure` and the fixed model identifier. -/
structure Model where
  configured_key : Option String
  name : String
deriving DecidableEq

/-- `initialize_gemini_api` (lines 16-21).  The `api_key` parameter is immediately
shadowed by `os.environ.get("GEMINI_API_KEY")` (passed here explicitly as
`env_gemini_api_key`); that value is handed to `genai.configure`, and the fixed
model `gemini-1.5-pro` is returned. -/
def initialize_gemini_api (api_key : String) (env_gemini_api_key : Option String) :
    Model :=
  let api_key := env_gemini_api_key
  { configured_key := api_key, name := "gemini-1.5-pro" }

/-- The prompt dictionary of `generate_code` (lines 25-58): for each category, a
fixed template with the requirements string interpolated at its single slot.
Whitespace (including the 8-space line after each heading) is transcribed exactly
from the Python f-strings. -/
def prompts (tool_type : Category) (requirements : String) : String :=
  match tool_type with
  | .ansible =>
      "Generate a complete Ansible playbook based on the following requirements:\n        \nRequirements:\n"
        ++ requirements ++
      "\n\nPlease provide a well-structured, production-ready Ansible playbook with detailed comments.\nInclude proper error handling, idempotent tasks, and follow best practices.\n"
  | .docker =>
      "Generate a production-ready Dockerfile based on the following requirements:\n        \nRequirements:\n"
        ++ requirements ++
      "\n\nPlease include:\n1. Proper base image selection\n2. All necessary installation steps\n3. Best practices for Docker (multi-stage builds if appropriate, minimizing layers, etc.)\n4. Proper environment setup\n5. Detailed comments explaining each step\n"
  | .terraform =>
      "Generate Terraform code (HCL) for the following infrastructure requirements:\n        \nRequirements:\n"
        ++ requirements ++
      "\n\nThe code should:\n1. Follow Terraform best practices\n2. Include proper variable declarations\n3. Use modules where appropriate\n4. Include detailed comments\n5. Handle dependencies properly\n"

/-- Spec-side form of the Template Selector: the text before the interpolation
slot of each category's fixed template. -/
def templatePrefix : Category → String
  | .ansible =>
      "Generate a complete Ansible playbook based on the following requirements:\n        \nRequirements:\n"
  | .docker =>
      "Generate a production-ready Dockerfile based on the following requirements:\n        \nRequirements:\n"
  | .terraform =>
      "Generate Terraform code (HCL) for the following infrastructure requirements:\n        \nRequirements:\n"

/-- Spec-side form of the Template Selector: the text after the interpolation
slot of each category's fixed template. -/
def templateSuffix : Category → String
  | .ansible =>
      "\n\nPlease provide a well-structured, production-ready Ansible playbook with detailed comments.\nInclude proper error handling, idempotent tasks, and follow best practices.\n"
  | .docker =>
      "\n\nPlease include:\n1. Proper base image selection\n2. All necessary installation steps\n3. Best practices for Docker (multi-stage builds if appropriate, minimizing layers, etc.)\n4. Proper environment setup\n5. Detailed comments explaining each step\n"
  | .terraform =>
      "\n\nThe code should:\n1. Follow Terraform best practices\n2. Include proper variable declarations\n3. Use modules where appropriate\n4. Include detailed comments\n5. Handle dependencies properly\n"

/-- Spec-side Template Selector: the category's fixed template with the
requirements string substituted at its slot. -/
def promptSpec (tool_type : Category) (requirements : String) : String :=
  templatePrefix tool_type ++ requirements ++ templateSuffix tool_type

/-- The session state relevant to the claims: `st.session_state.generated_code`,
initialised to `""` (lines 84-85). -/
structure AppState where
  generated_code : String
deriving DecidableEq

/-- The initial session state (lines 84-85). -/
def initialState : AppState := { generated_code := "" }

/-- A user-visible notice emitted by the button handler: `st.error`,
`st.warning` or `st.success`. -/
inductive Msg where
  | error (text : String)
  | warning (text : String)
  | success (text : String)
deriving DecidableEq

/-- The single outbound request to the external generation service, when one is
made: the credential `genai.configure` received, the model identifier, and the
prompt passed to `generate_content`. -/
structure OutboundCall where
  configured_key : Option String
  model_name : String
  prompt : String
deriving DecidableEq

/-- Everything one press of the Generate button produces: the notices shown, the
outbound call if any (`none` means the external service was never invoked), and
the session state afterwards. -/
structure ClickEffects where
  msgs : List Msg
  externalCall : Option OutboundCall
  state : AppState
deriving DecidableEq

/-- The Generate-button handler (lines 107-123).  `if not api_key` and
`elif not requirements` are Python truthiness tests on strings, i.e. emptiness
tests.  On the call path, `initialize_gemini_api` is invoked and then
`generate_code`, whose external call outcome is the `oracle`: on `ok t` the
session state is overwritten with `t` and a success notice shown; on a raised
exception `e` the `except` clause (lines 122-123) shows
`"Error generating code: " ++ e` and the assignment to the session state never
happens. -/
def generateClick (api_key requirements : String) (tool_type : Category)
    (env_gemini_api_key : Option String) (st : AppState)
    (oracle : Except String String) : ClickEffects :=
  if api_key = "" then
    { msgs := [Msg.error "Please enter your Google Gemini API Key in the sidebar."],
      externalCall := none, state := st }
  else if requirements = "" then
    { msgs := [Msg.warning "Please enter your requirements."],
      externalCall := none, state := st }
  else
    let model := initialize_gemini_api api_key env_gemini_api_key
    let call : OutboundCall :=
      { configured_key := model.configured_key, model_name := model.name,
        prompt := prompts tool_type requirements }
    match oracle with
    | Except.ok t =>
        { msgs := [Msg.success "Code generated successfully!"],
          externalCall := some call,
          state := { generated_code := t } }
    | Except.error e =>
        { msgs := [Msg.error ("Error generating code: " ++ e)],
          externalCall := some call, state := st }

/-- The per-category file extension dictionary (lines 130-134). -/
def extensions : Category → String
  | .ansible => "yml"
  | .docker => "Dockerfile"
  | .terraform => "tf"

/-- The download file name `f"{tool_type}_generated.{file_extension}"`
(line 137), derived from the currently selected category. -/
def file_name (tool_type : Category) : String :=
  categoryName tool_type ++ "_generated." ++ extensions tool_type

/-- The category-specific usage hint (lines 151-156). -/
def hintText : Category → String
  | .ansible =>
      "To use this Ansible playbook, save it as a .yml file and run it with `ansible-playbook filename.yml`"
  | .docker =>
      "To build this Docker image, save as \x27Dockerfile\x27 and run `docker build -t your-image-name .`"
  | .terraform =>
      "To use this Terraform code, save it as main.tf, run `terraform init` followed by `terraform apply`"

/-- The download button's payload (lines 143-148): file name, data, mime type. -/
structure Download where
  file_name : String
  data : String
  mime : String
deriving DecidableEq

/-- What the result-display section renders: the markdown body shown verbatim
(`none` when the section is skipped), the download artifact offered, and the
usage hint shown. -/
structure RenderOutput where
  displayed : Option String
  download : Option Download
  hint : Option String
deriving DecidableEq

/-- The result-display section of `main` (lines 126-156), guarded by the Python
truthiness test `if st.session_state.generated_code:` — it runs only when the
stored string is non-empty.  Line 140's stray indentation (a syntax slip, see the
file header) is modelled at the enclosing block's level, its evident intent: the
stored string is passed to `st.markdown` unchanged. -/
def renderResult (tool_type : Category) (st : AppState) : RenderOutput :=
  if st.generated_code = "" then
    { displayed := none, download := none, hint := none }
  else
    { displayed := some st.generated_code,
      download := some { file_name := file_name tool_type,
                         data := st.generated_code, mime := "text/plain" },
      hint := some (hintText tool_type) }

/-! ### Shared helper lemmas -/

/-- With an empty sidebar key the handler stops at the credential error. -/
lemma generateClick_empty_key (requirements : String) (c : Category)
    (env : Option String) (st : AppState) (oracle : Except String String) :
    generateClick "" requirements c env st oracle
      = { msgs := [Msg.error "Please enter your Google Gemini API Key in the sidebar."],
          externalCall := none, state := st } := by
  simp [generateClick]

/-- With a non-empty sidebar key and empty requirements the handler stops at the
warning. -/
lemma generateClick_empty_req (api_key : String) (c : Category)
    (env : Option String) (st : AppState) (oracle : Except String String)
    (hk : api_key ≠ "") :
    generateClick api_key "" c env st oracle
      = { msgs := [Msg.warning "Please enter your requirements."],
          externalCall := none, state := st } := by
  simp [generateClick, hk]

/-- On the call path with a successful oracle, the handler makes exactly one
outbound call carrying the environment credential and overwrites the state. -/
lemma generateClick_ok (api_key requirements : String) (c : Category)
    (env : Option String) (st : AppState) (t : String)
    (hk : api_key ≠ "") (hr : requirements ≠ "") :
    generateClick api_key requirements c env st (Except.ok t)
      = { msgs := [Msg.success "Code generated successfully!"],
          externalCall := some { configured_key := env, model_name := "gemini-1.5-pro",
                                 prompt := prompts c requirements },
          state := { generated_code := t } } := by
  simp [generateClick, initialize_gemini_api, hk, hr]

/-- On the call path with a failing oracle, the handler reports the error and
leaves the state untouched. -/
lemma generateClick_err (api_key requirements : String) (c : Category)
    (env : Option String) (st : AppState) (e : String)
    (hk : api_key ≠ "") (hr : requirements ≠ "") :
    generateClick api_key requirements c env st (Except.error e)
      = { msgs := [Msg.error ("Error generating code: " ++ e)],
          externalCall := some { configured_key := env, model_name := "gemini-1.5-pro",
                                 prompt := prompts c requirements },
          state := st } := by
  simp [generateClick, initialize_gemini_api, hk, hr]

/-- A non-empty stored result is rendered in full. -/
lemma renderResult_pos (c : Category) (s : String) (h : s ≠ "") :
    renderResult c { generated_code := s }
      = { displayed := some s,
          download := some { file_name := file_name c, data := s, mime := "text/plain" },
          hint := some (hintText c) } := by
  simp [renderResult, h]

/-! ### Claim theorems -/

/-- C1: with no credential entered (the sidebar API-key field empty — the only
credential the handler checks), every press of Generate, for every category,
every requirements string, every environment and every prior state, stops at the
authentication error notice, makes no outbound call, and leaves the state
unchanged. -/
theorem no_credential_blocks_generation :
    ∀ (requirements : String) (c : Category) (env : Option String)
      (st : AppState) (oracle : Except String String),
      (generateClick "" requirements c env st oracle).msgs
          = [Msg.error "Please enter your Google Gemini API Key in the sidebar."]
        ∧ (generateClick "" requirements c env st oracle).externalCall = none
        ∧ (generateClick "" requirements c env st oracle).state = st := by
  intro requirements c env st oracle
  rw [generateClick_empty_key]
  exact ⟨rfl, rfl, rfl⟩

/-- C2: the Template Selector is a pure function of `(category, requirements)`,
and its output is exactly the category's fixed template with the requirements
string interpolated at the single slot (`promptSpec`): determinism and template
substitution correctness. -/
theorem template_selector_is_fixed_substitution :
    ∀ (c : Category) (requirements : String),
      prompts c requirements = promptSpec c requirements := by
  intro c requirements
  cases c <;> rfl

/-- C3: with a credential entered, an empty requirements string makes the
Generate action stop at the "Please enter your requirements." warning, with no
outbound call and the state unchanged, for every category. -/
theorem empty_requirements_warns_no_call (api_key : String) (c : Category)
    (env : Option String) (st : AppState) (oracle : Except String String)
    (hk : api_key ≠ "") :
    (generateClick api_key "" c env st oracle).msgs
        = [Msg.warning "Please enter your requirements."]
      ∧ (generateClick api_key "" c env st oracle).externalCall = none
      ∧ (generateClick api_key "" c env st oracle).state = st := by
  rw [generateClick_empty_req _ _ _ _ _ hk]
  exact ⟨rfl, rfl, rfl⟩

/-- Witness for C3 at a concrete input. -/
theorem empty_requirements_warns_no_call_witness :
    (generateClick "k" "" Category.docker none { generated_code := "prev" }
        (Except.ok "t")).msgs
      = [Msg.warning "Please enter your requirements."] :=
  (empty_requirements_warns_no_call "k" Category.docker none
      { generated_code := "prev" } (Except.ok "t") (by decide)).1

/-- C4: when the external call raises `e`, the stored result is exactly the
prior one (atomicity on error) and the single notice shown is the error notice
carrying the underlying message. -/
theorem failing_call_keeps_state_and_reports (api_key requirements : String)
    (c : Category) (env : Option String) (st : AppState) (e : String)
    (hk : api_key ≠ "") (hr : requirements ≠ "") :
    (generateClick api_key requirements c env st (Except.error e)).state = st
      ∧ (generateClick api_key requirements c env st (Except.error e)).msgs
          = [Msg.error ("Error generating code: " ++ e)] := by
  rw [generateClick_err _ _ _ _ _ _ hk hr]
  exact ⟨rfl, rfl⟩

/-- Witness for C4 at a concrete input. -/
theorem failing_call_keeps_state_and_reports_witness :
    (generateClick "k" "make a vpc" Category.terraform (some "secret")
        { generated_code := "old result" } (Except.error "quota exceeded")).state
      = { generated_code := "old result" } :=
  (failing_call_keeps_state_and_reports "k" "make a vpc" Category.terraform
      (some "secret") { generated_code := "old result" } "quota exceeded"
      (by decide) (by decide)).1

/-- C5: after two successful generations in sequence, the stored result slot
holds exactly the second call's output, whatever the first call produced and
whatever state preceded both: overwrite semantics, no accumulation. -/
theorem second_success_overwrites (k1 k2 r1 r2 : String) (c1 c2 : Category)
    (env1 env2 : Option String) (st : AppState) (t1 t2 : String)
    (hk1 : k1 ≠ "") (hr1 : r1 ≠ "") (hk2 : k2 ≠ "") (hr2 : r2 ≠ "") :
    (generateClick k2 r2 c2 env2
        (generateClick k1 r1 c1 env1 st (Except.ok t1)).state
        (Except.ok t2)).state
      = { generated_code := t2 } := by
  rw [generateClick_ok _ _ _ _ _ _ hk1 hr1, generateClick_ok _ _ _ _ _ _ hk2 hr2]

/-- Witness for C5 at a concrete input. -/
theorem second_success_overwrites_witness :
    (generateClick "k" "r2" Category.docker none
        (generateClick "k" "r1" Category.ansible none initialState
            (Except.ok "first")).state
        (Except.ok "second")).state
      = { generated_code := "second" } :=
  second_success_overwrites "k" "k" "r1" "r2" Category.ansible Category.docker
    none none initialState "first" "second"
    (by decide) (by decide) (by decide) (by decide)

/-- C6 counterexample: a successful generation may return the empty string, and
then the truthiness guard `if st.session_state.generated_code:` skips the whole
display section — no download artifact exists at all, although the claim, taken
over every returned text `T`, promises one named `docker_generated.Dockerfile`
containing exactly `T`. -/
theorem empty_success_has_no_artifact :
    renderResult Category.docker
        (generateClick "k" "r" Category.docker none
            { generated_code := "old" } (Except.ok "")).state
      = { displayed := none, download := none, hint := none } := by
  rw [generateClick_ok _ _ _ _ _ _ (by decide) (by decide)]
  rfl

/-- C6 amended: for every successful generation returning **non-empty** text
`T` under category `c`, the downloadable artifact offered by the following
render pass contains exactly `T` and is named
`{categoryName c}_generated.{extensions c}`. -/
theorem artifact_named_and_exact (api_key requirements t : String) (c : Category)
    (env : Option String) (st : AppState)
    (hk : api_key ≠ "") (hr : requirements ≠ "") (ht : t ≠ "") :
    (renderResult c
        (generateClick api_key requirements c env st (Except.ok t)).state).download
      = some { file_name := categoryName c ++ "_generated." ++ extensions c,
               data := t, mime := "text/plain" } := by
  rw [generateClick_ok _ _ _ _ _ _ hk hr, renderResult_pos _ _ ht]
  rfl

/-- Witness for the amended C6: for category docker and returned text `T`, the
artifact is `docker_generated.Dockerfile` containing exactly `T`. -/
theorem artifact_named_and_exact_witness :
    (renderResult Category.docker
        (generateClick "k" "flask app" Category.docker none initialState
            (Except.ok "FROM python:3.12")).state).download
      = some { file_name := "docker_generated.Dockerfile",
               data := "FROM python:3.12", mime := "text/plain" } :=
  (artifact_named_and_exact "k" "flask app" "FROM python:3.12" Category.docker
      none initialState (by decide) (by decide) (by decide)).trans (by decide)

/-- C8: the sidebar API-key input never reaches the outbound call.
`initialize_gemini_api` ignores its parameter in favour of the environment
variable, so any two non-empty sidebar values produce identical click effects —
identical notices, identical outbound call (same configured credential, model
and prompt), identical state — and the configured credential on the call path is
exactly the environment value. -/
theorem sidebar_key_never_reaches_call (k1 k2 requirements : String)
    (c : Category) (env : Option String) (st : AppState)
    (oracle : Except String String) (h1 : k1 ≠ "") (h2 : k2 ≠ "") :
    initialize_gemini_api k1 env = initialize_gemini_api k2 env
      ∧ generateClick k1 requirements c env st oracle
          = generateClick k2 requirements c env st oracle
      ∧ (requirements ≠ "" →
          (generateClick k1 requirements c env st oracle).externalCall
            = some { configured_key := env, model_name := "gemini-1.5-pro",
                     prompt := prompts c requirements }) := by
  refine ⟨rfl, ?_, ?_⟩
  · simp [generateClick, initialize_gemini_api, h1, h2]
  · intro hr
    cases oracle with
    | ok t => rw [generateClick_ok _ _ _ _ _ _ h1 hr]
    | error e => rw [generateClick_err _ _ _ _ _ _ h1 hr]

/-- Witness for C8 at concrete inputs: two different sidebar keys, identical
effects, and the credential on the wire is the environment value. -/
theorem sidebar_key_never_reaches_call_witness :
    generateClick "alpha" "r" Category.ansible (some "envkey") initialState
        (Except.ok "out")
      = generateClick "beta" "r" Category.ansible (some "envkey") initialState
          (Except.ok "out") :=
  (sidebar_key_never_reaches_call "alpha" "beta" "r" Category.ansible
      (some "envkey") initialState (Except.ok "out")
      (by decide) (by decide)).2.1

/-- C9: the download file name and the usage hint follow the **currently
selected** category, not the category under which the stored result was
generated: generating under `c1` and then rendering with `c2` selected offers
the unchanged text under `c2`'s file name with `c2`'s hint. -/
theorem artifact_follows_current_category (api_key requirements t : String)
    (c1 c2 : Category) (env : Option String) (st : AppState)
    (hk : api_key ≠ "") (hr : requirements ≠ "") (ht : t ≠ "") :
    (renderResult c2
        (generateClick api_key requirements c1 env st (Except.ok t)).state)
      = { displayed := some t,
          download := some { file_name := file_name c2, data := t,
                             mime := "text/plain" },
          hint := some (hintText c2) } := by
  rw [generateClick_ok _ _ _ _ _ _ hk hr, renderResult_pos _ _ ht]

/-- Witness for C9 at concrete inputs: generated under ansible, rendered with
docker selected — docker name, docker hint, unchanged text. -/
theorem artifact_follows_current_category_witness :
    (renderResult Category.docker
        (generateClick "k" "web server" Category.ansible none initialState
            (Except.ok "- hosts: all")).state).download
      = some { file_name := "docker_generated.Dockerfile",
               data := "- hosts: all", mime := "text/plain" } := by
  have h := artifact_follows_current_category "k" "web server" "- hosts: all"
    Category.ansible Category.docker none initialState
    (by decide) (by decide) (by decide)
  rw [h]
  rfl

/-- C10: when both the sidebar key and the requirements are empty, the handler
emits exactly the credential error — the empty-requirements warning is not
reached — makes no call and leaves the state unchanged. -/
theorem credential_check_precedes_requirements_check :
    ∀ (c : Category) (env : Option String) (st : AppState)
      (oracle : Except String String),
      generateClick "" "" c env st oracle
        = { msgs := [Msg.error "Please enter your Google Gemini API Key in the sidebar."],
            externalCall := none, state := st } := by
  intro c env st oracle
  exact generateClick_empty_key "" c env st oracle

end DevOpsLab
